import Mathlib

/-!
Verification of the SMART_PANTRY cycle-EMA predictor core and its service
dispatchers, shallowly embedded from the Python sources.

Modelling conventions:
* Python floats are embedded as exact rationals (`ℚ`); the one transcendental
  computation (`math.exp` inside `compute_confidence`) is embedded over `ℝ`
  with `Real.exp`, so confidence values live in `ℝ`.
* `datetime` values are rational day counts (the code only ever uses
  differences in days via `_days_between`); `Optional[datetime]` is `Option ℚ`.
* Python strings are `List Char` (named `Str` below) so that the string
  operations used by the code (`upper`, `lower`, `strip`, substring `in`)
  reduce inside the kernel.
* Python `max`/`min`/`abs` on floats are `pymax`/`pymin`/`pyabs`, written with
  `if` so they evaluate; lemmas relate them to the lattice operations.
* Dataclass mutation is embedded as functional record update.
-/

/-- Python `abs` on a float, embedded on `ℚ`. -/
def pyabs (x : ℚ) : ℚ := if x < 0 then -x else x

/-- Python two-argument `max` on floats, embedded on `ℚ`. -/
def pymax (a b : ℚ) : ℚ := if a ≤ b then b else a

/-- Python two-argument `min` on floats, embedded on `ℚ`. -/
def pymin (a b : ℚ) : ℚ := if a ≤ b then a else b

theorem pyabs_eq_abs (x : ℚ) : pyabs x = |x| := by
  unfold pyabs
  rcases lt_or_le x 0 with h | h
  · rw [if_pos h, abs_of_neg h]
  · rw [if_neg (not_lt.mpr h), abs_of_nonneg h]

theorem pymax_eq_max (a b : ℚ) : pymax a b = max a b := by
  unfold pymax
  rw [max_def]

theorem pymin_eq_min (a b : ℚ) : pymin a b = min a b := by
  unfold pymin
  rw [min_def]

/-- Left argument is a lower bound of `pymax`. -/
theorem le_pymax_left (a b : ℚ) : a ≤ pymax a b := by
  rw [pymax_eq_max]; exact le_max_left a b

/-- Right argument is a lower bound of `pymax`. -/
theorem le_pymax_right (a b : ℚ) : b ≤ pymax a b := by
  rw [pymax_eq_max]; exact le_max_right a b

theorem pymin_le_left (a b : ℚ) : pymin a b ≤ a := by
  rw [pymin_eq_min]; exact min_le_left a b

/-- Python strings, embedded as character lists so that all operations the
code performs on them compute. -/
abbrev Str := List Char

/-- Python `str.upper` (the code only ever uppercases ASCII enum values). -/
def upperStr (s : Str) : Str := s.map Char.toUpper

/-- Python `str.lower`. -/
def lowerStr (s : Str) : Str := s.map Char.toLower

/-- Python `str.strip`. -/
def trimStr (s : Str) : Str :=
  ((s.dropWhile Char.isWhitespace).reverse.dropWhile Char.isWhitespace).reverse

/-- Python substring containment `pat in s`. -/
def containsSub : Str → Str → Bool
  | _, [] => true
  | [], _ :: _ => false
  | c :: s, pat => pat.isPrefixOf (c :: s) || containsSub s pat

/-! ## Enums (ema_cycle_predictor.py lines 14-41) -/

inductive InventoryState
  | EMPTY | LOW | MEDIUM | FULL | UNKNOWN
  deriving DecidableEq, Repr

inductive InventorySource
  | RECEIPT | SHOPPING_LIST | MANUAL | SYSTEM
  deriving DecidableEq, Repr

inductive InventoryAction
  | PURCHASE | ADJUST | CONSUME | RESET
  deriving DecidableEq, Repr

inductive FeedbackKind
  | MORE | LESS | EXACT | EMPTY | WASTED
  deriving DecidableEq, Repr

/-! ## Config / State / Forecast (ema_cycle_predictor.py lines 47-205) -/

structure CategoryPrior where
  mean_days : ℚ
  mad_days : ℚ
  deriving DecidableEq, Repr

/-- `PredictorConfig` dataclass with its field defaults
(ema_cycle_predictor.py lines 53-76); `category_priors` is an association
list standing for the Python dict. -/
structure PredictorConfig where
  category_priors : List (Str × CategoryPrior)
  alpha_strong : ℚ := 12/100
  alpha_weak : ℚ := 10/100
  alpha_confirm : ℚ := 5/100
  min_cycle_days : ℚ := 1
  max_cycle_days : ℚ := 90
  more_less_ratio : ℚ := 15/100
  more_less_step_cap_days : ℚ := 3
  full_ratio : ℚ := 70/100
  medium_ratio : ℚ := 30/100
  recency_tau_days : ℚ := 21
  deriving DecidableEq, Repr

/-- The dataclass-default configuration (all fields at their declared
defaults, no category priors). -/
def default_config : PredictorConfig := { category_priors := [] }

/-- `CycleEmaState` dataclass (ema_cycle_predictor.py lines 118-139). -/
structure CycleEmaState where
  cycle_mean_days : ℚ
  cycle_mad_days : ℚ
  cycle_started_at : Option ℚ
  last_purchase_at : Option ℚ
  last_update_at : ℚ
  n_strong_updates : ℕ := 0
  n_total_updates : ℕ := 0
  n_completed_cycles : ℕ := 0
  last_pred_days_left : Option ℚ := none
  censored_cycles : ℕ := 0
  waste_events : ℕ := 0
  category_id : Option Str := none
  last_feedback_at : Option ℚ := none
  empty_at : Option ℚ := none
  deriving DecidableEq, Repr

/-- `Forecast` dataclass (ema_cycle_predictor.py lines 200-205); confidence
is real-valued because `compute_confidence` uses `math.exp`. -/
structure Forecast where
  expected_days_left : ℚ
  predicted_state : InventoryState
  confidence : ℝ
  generated_at : ℚ

/-! ## Helpers (ema_cycle_predictor.py lines 211-302) -/

/-- `_days_between` (line 215): `|a - b|` in days; timestamps are already
rational day counts here. -/
def _days_between (a b : ℚ) : ℚ := pyabs (a - b)

/-- `_clamp` (line 220). -/
def _clamp (x lo hi : ℚ) : ℚ := pymax lo (pymin hi x)

/-- `_sigmoid` (lines 224-231), over `ℝ`. -/
noncomputable def _sigmoid (x : ℝ) : ℝ :=
  if 0 ≤ x then 1 / (1 + Real.exp (-x)) else Real.exp x / (1 + Real.exp x)

/-- `derive_state` (lines 234-246). -/
def derive_state (days_left mean_days : ℚ) (cfg : PredictorConfig) : InventoryState :=
  if days_left ≤ 0 then .EMPTY
  else
    let denom := pymax mean_days (1/1000000)
    let ratio := days_left / denom
    if ratio < 1/50 then .EMPTY
    else if cfg.full_ratio ≤ ratio then .FULL
    else if cfg.medium_ratio ≤ ratio then .MEDIUM
    else .LOW

/-- `compute_confidence` (lines 249-273). -/
noncomputable def compute_confidence (state : CycleEmaState) (now : ℚ) (cfg : PredictorConfig) : ℝ :=
  let cycles_for_evidence : ℕ :=
    if 0 < state.n_completed_cycles then state.n_completed_cycles else state.n_strong_updates
  let evidence : ℝ := _sigmoid ((cycles_for_evidence : ℝ) / 2)
  let evidence : ℝ := if cycles_for_evidence = 0 then 3/10 else evidence
  let stability : ℝ :=
    1 - ((state.cycle_mad_days : ℝ) / max ((state.cycle_mean_days : ℝ)) 1)
  let stability : ℝ := max (1/5) (min 1 stability)
  let days_since : ℝ := ((_days_between now state.last_update_at : ℚ) : ℝ)
  let recency : ℝ := Real.exp (-(days_since / max ((cfg.recency_tau_days : ℚ) : ℝ) (1/1000000)))
  let recency : ℝ := max (1/10) recency
  max 0 (min 1 (1/5 + (4/5) * evidence * stability * recency))

/-- `compute_days_left` (lines 276-302). -/
def compute_days_left (state : CycleEmaState) (now : ℚ) (multiplier : ℚ)
    (_cfg : PredictorConfig) (inventory_days_left : Option ℚ) : ℚ :=
  match inventory_days_left with
  | some idl =>
    let mult := pymax multiplier (1/1000000)
    pymax (idl / mult) 0
  | none =>
    match state.cycle_started_at with
    | none => 0
    | some started =>
      let elapsed := _days_between now started
      let base_left := pymax (state.cycle_mean_days - elapsed) 0
      let mult := pymax multiplier (1/1000000)
      pymax (base_left / mult) 0

/-! ## Initialization (ema_cycle_predictor.py lines 308-332) -/

/-- `init_state_from_category` (lines 308-332); `now` is an explicit argument
(the Python default `datetime.now` is supplied by callers here). -/
def init_state_from_category (category_id : Option Str) (cfg : PredictorConfig) (now : ℚ) : CycleEmaState :=
  let prior : CategoryPrior :=
    match category_id with
    | some cid => (cfg.category_priors.lookup cid).getD { mean_days := 7, mad_days := 2 }
    | none => { mean_days := 7, mad_days := 2 }
  { cycle_mean_days := _clamp prior.mean_days cfg.min_cycle_days cfg.max_cycle_days
    cycle_mad_days := pymax prior.mad_days (1/10)
    cycle_started_at := none
    last_purchase_at := none
    last_update_at := now
    n_strong_updates := 0
    n_total_updates := 0
    n_completed_cycles := 0
    last_pred_days_left := none
    censored_cycles := 0
    waste_events := 0
    category_id := category_id
    last_feedback_at := none
    empty_at := none }

/-! ## Events and update rules (ema_cycle_predictor.py lines 338-492) -/

structure PurchaseEvent where
  ts : ℚ
  source : InventorySource
  reliability : ℚ := 1
  deriving DecidableEq, Repr

structure FeedbackEvent where
  ts : ℚ
  kind : FeedbackKind
  source : InventorySource := .MANUAL
  reliability : ℚ := 9/10
  note : Option Str := none
  deriving DecidableEq, Repr

/-- The "Update mean if needed" block of `apply_purchase`
(ema_cycle_predictor.py lines 380-409), shared by the two cases that close a
cycle with a clamped `observed` length. -/
def apply_purchase_update (state : CycleEmaState) (cfg : PredictorConfig) (observed : ℚ) : CycleEmaState :=
  let old_mean := state.cycle_mean_days
  let n_cycles := state.n_completed_cycles
  let new_mean : ℚ :=
    if n_cycles = 0 then observed
    else (old_mean * n_cycles + observed) / (n_cycles + 1)
  let new_mean := _clamp new_mean cfg.min_cycle_days cfg.max_cycle_days
  let err := observed - old_mean
  let new_mad : ℚ :=
    if n_cycles = 0 then (if 0 < pyabs err then pyabs err else 1/10)
    else (state.cycle_mad_days * n_cycles + pyabs err) / (n_cycles + 1)
  let new_mad := _clamp new_mad (1/10) cfg.max_cycle_days
  { state with
    cycle_mean_days := new_mean
    cycle_mad_days := new_mad
    n_completed_cycles := n_cycles + 1
    n_strong_updates := state.n_strong_updates + 1 }

/-- `apply_purchase` (ema_cycle_predictor.py lines 354-422). -/
def apply_purchase (state : CycleEmaState) (ev : PurchaseEvent) (cfg : PredictorConfig)
    (current_state : Option InventoryState) : CycleEmaState :=
  let closed : CycleEmaState :=
    match state.empty_at, state.cycle_started_at with
    | some empty_ts, some started_ts =>
      let observed := _clamp (_days_between empty_ts started_ts) cfg.min_cycle_days cfg.max_cycle_days
      apply_purchase_update state cfg observed
    | none, some started_ts =>
      if current_state = some InventoryState.LOW then
        let observed := _clamp (_days_between ev.ts started_ts) cfg.min_cycle_days cfg.max_cycle_days
        apply_purchase_update state cfg observed
      else if current_state = some InventoryState.FULL ∨ current_state = some InventoryState.MEDIUM then
        { state with censored_cycles := state.censored_cycles + 1 }
      else state
    | _, none => state
  { closed with
    cycle_started_at := some ev.ts
    last_purchase_at := some ev.ts
    last_update_at := ev.ts
    empty_at := none }

def kw_taste : Str := "taste".toList
def kw_expired : Str := "expired".toList
def kw_bad_taste_he : Str := "לא היה טעים".toList
def kw_expired_he : Str := "פג תוקף".toList
def kw_ran_out : Str := "ran out".toList
def kw_ran_out_he : Str := "נגמר".toList
def kw_empty : Str := "empty".toList
def kw_wasted : Str := "wasted".toList
def kw_thrown : Str := "thrown".toList
def kw_wasted_he : Str := "נזרק".toList
def kw_out : Str := "out".toList
def kw_exact : Str := "exact".toList
def kw_exact_he : Str := "בול".toList
def kw_more : Str := "more".toList
def kw_more_he : Str := "יותר".toList
def kw_less : Str := "less".toList
def kw_less_he : Str := "פחות".toList

/-- `apply_feedback` (ema_cycle_predictor.py lines 425-492). -/
def apply_feedback (state : CycleEmaState) (ev : FeedbackEvent) (cfg : PredictorConfig) : CycleEmaState :=
  let state := { state with last_update_at := ev.ts, n_total_updates := state.n_total_updates + 1 }
  match ev.kind with
  | .EMPTY =>
    if state.empty_at = none then { state with empty_at := some ev.ts } else state
  | .WASTED =>
    let state := { state with waste_events := state.waste_events + 1 }
    let reason := lowerStr (ev.note.getD [])
    if containsSub reason kw_taste || containsSub reason kw_expired ||
        containsSub reason kw_bad_taste_he || containsSub reason kw_expired_he then
      { state with
        cycle_started_at := none
        cycle_mad_days := _clamp (state.cycle_mad_days * (103/100)) (1/10) cfg.max_cycle_days }
    else if containsSub reason kw_ran_out || containsSub reason kw_ran_out_he ||
        containsSub reason kw_empty then
      match state.cycle_started_at with
      | some started_ts =>
        let observed := _clamp (_days_between ev.ts started_ts) cfg.min_cycle_days cfg.max_cycle_days
        let a := cfg.alpha_strong * (1/5)
        let old_mean := state.cycle_mean_days
        let new_mean := _clamp ((1 - a) * old_mean + a * observed) cfg.min_cycle_days cfg.max_cycle_days
        let err := observed - old_mean
        let new_mad := _clamp ((1 - a) * state.cycle_mad_days + a * pyabs err * (1/2)) (1/10) cfg.max_cycle_days
        { state with
          cycle_mean_days := new_mean
          cycle_mad_days := new_mad
          cycle_started_at := none }
      | none => { state with cycle_started_at := none }
    else
      { state with
        cycle_started_at := none
        cycle_mad_days := _clamp (state.cycle_mad_days * (103/100)) (1/10) cfg.max_cycle_days }
  | .EXACT =>
    let a := cfg.alpha_confirm
    { state with cycle_mad_days := _clamp ((1 - a) * state.cycle_mad_days) (1/10) cfg.max_cycle_days }
  | .MORE => { state with last_feedback_at := some ev.ts }
  | .LESS => { state with last_feedback_at := some ev.ts }

/-! ## Prediction (ema_cycle_predictor.py lines 498-526) -/

/-- `predict` (lines 498-521). -/
noncomputable def predict (state : CycleEmaState) (now : ℚ) (multiplier : ℚ)
    (cfg : PredictorConfig) (inventory_days_left : Option ℚ) : Forecast :=
  let days_left := compute_days_left state now multiplier cfg inventory_days_left
  let st := derive_state days_left state.cycle_mean_days cfg
  let conf := compute_confidence state now cfg
  { expected_days_left := days_left
    predicted_state := st
    confidence := conf
    generated_at := now }

/-- `stamp_last_prediction` (lines 524-526). -/
def stamp_last_prediction (state : CycleEmaState) (forecast : Forecast) : CycleEmaState :=
  { state with last_pred_days_left := some forecast.expected_days_left }

/-! ## Inventory log -> internal events (ema_cycle_predictor.py lines 532-642) -/

/-- An `inventory_log` row as consumed by `map_inventory_log_row_to_event`;
`occurred_at` is an already-parsed timestamp (the Python ISO-8601 string
parsing with variable microsecond precision is outside this model). -/
structure InventoryLogRow where
  action : Option Str
  delta_state : Option Str
  occurred_at : Option ℚ
  source : Option Str
  note : Option Str
  deriving DecidableEq, Repr

/-- `parse_feedback_from_note` (ema_cycle_predictor.py lines 532-569).
The `json.loads` attempt (lines 543-556) is outside this model: the model
goes straight to the keyword scan, which agrees with the JSON branch on the
canonical payloads because every serialized kind name contains its own
keyword. -/
def parse_feedback_from_note (note : Option Str) : Option FeedbackKind :=
  match note with
  | none => none
  | some raw =>
    if raw.isEmpty then none
    else
      let s := trimStr raw
      let low := lowerStr s
      if containsSub low kw_wasted || containsSub low kw_thrown || containsSub low kw_wasted_he then
        some .WASTED
      else if containsSub low kw_empty || containsSub low kw_out || containsSub low kw_ran_out_he then
        some .EMPTY
      else if containsSub low kw_exact || containsSub low kw_exact_he then
        some .EXACT
      else if containsSub low kw_more || containsSub low kw_more_he then
        some .MORE
      else if containsSub low kw_less || containsSub low kw_less_he then
        some .LESS
      else none

/-- The `InventorySource(source)` constructor call with its `except` fallback
to SYSTEM (ema_cycle_predictor.py lines 620-623). -/
def parse_inventory_source (s : Str) : InventorySource :=
  if s = "RECEIPT".toList then .RECEIPT
  else if s = "SHOPPING_LIST".toList then .SHOPPING_LIST
  else if s = "MANUAL".toList then .MANUAL
  else if s = "SYSTEM".toList then .SYSTEM
  else .SYSTEM

/-- `map_inventory_log_row_to_event` (ema_cycle_predictor.py lines 572-642);
`now` stands for `_now_utc()`, used when the row has no usable timestamp. -/
def map_inventory_log_row_to_event (now : ℚ) (row : InventoryLogRow) :
    Option PurchaseEvent × Option FeedbackEvent :=
  let action := upperStr (row.action.getD [])
  let source_raw : Str :=
    match row.source with
    | none => "SYSTEM".toList
    | some s => if s.isEmpty then "SYSTEM".toList else s
  let source := upperStr source_raw
  let occurred_at := row.occurred_at.getD now
  let src_enum := parse_inventory_source source
  if action = "PURCHASE".toList ∨ action = "RESET".toList then
    (some { ts := occurred_at, source := src_enum }, none)
  else
    match parse_feedback_from_note row.note with
    | some fb => (none, some { ts := occurred_at, kind := fb, source := src_enum, note := row.note })
    | none =>
      let delta_state := upperStr (row.delta_state.getD [])
      if delta_state = "EMPTY".toList then
        (none, some { ts := occurred_at, kind := .EMPTY, source := src_enum })
      else if delta_state = "FULL".toList then
        (some { ts := occurred_at, source := src_enum }, none)
      else (none, none)

/-! ## Supabase dispatcher (app/services/predictor_service.py) -/

/-- Modelled from the spec: `predict_after_purchase` is imported at
app/services/predictor_service.py line 19 and called at line 438, but its
definition is missing from the sources; per the spec the dispatcher computes
the post-purchase forecast with the habit multiplier implicitly 1.0. -/
noncomputable def predict_after_purchase (state : CycleEmaState) (now : ℚ) (cfg : PredictorConfig) : Forecast :=
  predict state now 1 cfg none

/-- The event-application and forecast-computation portion of
`PredictorService.process_inventory_log`
(app/services/predictor_service.py lines 411-442): `state` is the loaded or
initialized predictor state, `current_state` the pre-purchase coarse
inventory state, and `mult` the value the repository's habit-multiplier
resolver would return. -/
noncomputable def process_inventory_log_forecast (row : InventoryLogRow) (state : CycleEmaState)
    (current_state : Option InventoryState) (mult : ℚ) (now : ℚ) (cfg : PredictorConfig) : Forecast :=
  let events := map_inventory_log_row_to_event now row
  let state1 :=
    match events.1 with
    | some purchase_ev => apply_purchase state purchase_ev cfg current_state
    | none => state
  let state2 :=
    match events.2 with
    | some feedback_ev => apply_feedback state1 feedback_ev cfg
    | none => state1
  match events.1 with
  | some _ => predict_after_purchase state2 now cfg
  | none => predict state2 now mult cfg none

/-- One per-product step of `PredictorService.daily_state_update_all_products`
(app/services/predictor_service.py lines 820-894) for a product whose current
coarse state is not EMPTY and whose inventory row carries a numeric
`estimated_qty` of `current_days_left`; returns the persisted
(days_left, coarse state, predictor state) triple.  The recomputed confidence
that is persisted alongside is not part of this projection. -/
def daily_state_step (state : CycleEmaState) (current_days_left : ℚ) (now : ℚ)
    (cfg : PredictorConfig) : ℚ × InventoryState × CycleEmaState :=
  let new_days_left := pymax 0 (current_days_left - 1)
  let state :=
    if new_days_left ≤ 0 ∧ state.empty_at = none then { state with empty_at := some now }
    else state
  let new_state := derive_state new_days_left state.cycle_mean_days cfg
  let state := { state with last_pred_days_left := some new_days_left, last_update_at := now }
  (new_days_left, new_state, state)

/-! ## Habit multiplier resolvers -/

/-- A habit `effects` JSON object, as read by both resolvers; the multiplier
maps are association lists standing for the Python dicts. -/
structure HabitEffects where
  global_multiplier : Option ℚ := none
  product_multipliers : List (Str × ℚ) := []
  category_multipliers : List (Str × ℚ) := []
  deriving DecidableEq, Repr

/-- One iteration of the effects loop shared by both resolvers
(app/services/predictor_service.py lines 265-284,
predictor_service_postgres.py lines 234-249). -/
def habit_effects_step (mult : ℚ) (effects : HabitEffects) (pid : Str) (cid : Option Str) : ℚ :=
  let mult :=
    match effects.global_multiplier with
    | some gm => mult * gm
    | none => mult
  let mult :=
    match effects.product_multipliers.lookup pid with
    | some pm => mult * pm
    | none => mult
  match cid with
  | some c =>
    match effects.category_multipliers.lookup c with
    | some cm => mult * cm
    | none => mult
  | none => mult

/-- `SupabasePantryRepository.get_active_habit_multiplier`
(app/services/predictor_service.py lines 249-286).  `fetched` is the outcome
of the habits query: the method wraps it in try/except and returns 1.0 on any
fetch error; an empty result list also short-circuits to 1.0. -/
def SupabasePantryRepository_get_active_habit_multiplier
    (fetched : Except Unit (List HabitEffects)) (pid : Str) (cid : Option Str) : ℚ :=
  match fetched with
  | .error _ => 1
  | .ok rows =>
    if rows = [] then 1
    else pymax (rows.foldl (fun m eff => habit_effects_step m eff pid cid) 1) (1/1000000)

/-- `PantryRepository.get_active_habit_multiplier`
(predictor_service_postgres.py lines 206-251).  The cursor execution has no
exception handler, so a fetch error propagates to the caller; this is
modelled by returning the error. -/
def PantryRepository_get_active_habit_multiplier
    (fetched : Except Unit (List HabitEffects)) (pid : Str) (cid : Option Str) : Except Unit ℚ :=
  match fetched with
  | .error e => .error e
  | .ok rows =>
    .ok (pymax (rows.foldl (fun m eff => habit_effects_step m eff pid cid) 1) (1/1000000))

/-! ## Postgres dispatcher (predictor_service_postgres.py lines 293-349) -/

/-- The Python runtime errors the Postgres dispatcher can raise mid-flight. -/
inductive PgError
  | apply_purchase_missing_cfg_arg
  deriving DecidableEq, Repr

/-- A repository write issued by the Postgres dispatcher. -/
inductive PgWrite
  | upsert_predictor_state (state : CycleEmaState)
  | upsert_inventory_days_estimate (days_left : ℚ) (state : InventoryState)
  | insert_forecast (fc : Forecast)

/-- `PantryPredictorService.process_inventory_log`
(predictor_service_postgres.py lines 293-349) from event classification
onwards: `state` is the loaded state and `mult` the resolved multiplier.
Line 315 calls `apply_purchase(state, purchase_ev)` without the required
`cfg` argument, which at runtime raises `TypeError` before any repository
write; that outcome is the `.error` branch.  A successful run returns the
updated state, the forecast, and the three writes it persists. -/
noncomputable def PantryPredictorService_process_inventory_log (row : InventoryLogRow)
    (state : CycleEmaState) (mult : ℚ) (now : ℚ) (cfg : PredictorConfig) :
    Except PgError (CycleEmaState × Forecast × List PgWrite) :=
  let events := map_inventory_log_row_to_event now row
  match events.1 with
  | some _ => .error .apply_purchase_missing_cfg_arg
  | none =>
    let state1 :=
      match events.2 with
      | some feedback_ev => apply_feedback state feedback_ev cfg
      | none => state
    let fc := predict state1 now mult cfg none
    let state2 := stamp_last_prediction state1 fc
    .ok (state2, fc,
      [.upsert_predictor_state state2,
       .upsert_inventory_days_estimate fc.expected_days_left fc.predicted_state,
       .insert_forecast fc])

/-! ## General lemmas about the clamped arithmetic -/

theorem le_clamp (x lo hi : ℚ) : lo ≤ _clamp x lo hi := le_pymax_left lo (pymin hi x)

theorem clamp_le (x lo hi : ℚ) (h : lo ≤ hi) : _clamp x lo hi ≤ hi := by
  unfold _clamp pymax
  split_ifs with h1
  · exact pymin_le_left hi x
  · exact h

theorem clamp_eq_of_mem (x lo hi : ℚ) (h1 : lo ≤ x) (h2 : x ≤ hi) : _clamp x lo hi = x := by
  unfold _clamp pymax pymin
  split_ifs with ha hb <;> first | rfl | omega | linarith

/-- `derive_state` returns EMPTY exactly on nonpositive days or a ratio below
2 percent. -/
theorem derive_state_eq_empty_iff (d m : ℚ) (cfg : PredictorConfig) :
    derive_state d m cfg = .EMPTY ↔ d ≤ 0 ∨ d / pymax m (1/1000000) < 1/50 := by
  simp only [derive_state]
  by_cases h1 : d ≤ 0
  · simp [h1]
  · rw [if_neg h1]
    by_cases h2 : d / pymax m (1/1000000) < 1/50
    · rw [if_pos h2]
      exact ⟨fun _ => Or.inr h2, fun _ => rfl⟩
    · rw [if_neg h2]
      constructor
      · intro he
        split_ifs at he
      · intro hr
        rcases hr with hr | hr
        · exact absurd hr h1
        · exact absurd hr h2

/-- C8: for MORE/LESS feedback, `apply_feedback` changes only
`last_feedback_at`, `last_update_at` and `n_total_updates`, leaving all other
fields of the state untouched. -/
theorem more_less_feedback_frame (state : CycleEmaState) (ev : FeedbackEvent)
    (cfg : PredictorConfig) (h : ev.kind = .MORE ∨ ev.kind = .LESS) :
    (apply_feedback state ev cfg).cycle_mean_days = state.cycle_mean_days ∧
    (apply_feedback state ev cfg).cycle_mad_days = state.cycle_mad_days ∧
    (apply_feedback state ev cfg).cycle_started_at = state.cycle_started_at ∧
    (apply_feedback state ev cfg).empty_at = state.empty_at ∧
    (apply_feedback state ev cfg).last_purchase_at = state.last_purchase_at ∧
    (apply_feedback state ev cfg).last_pred_days_left = state.last_pred_days_left ∧
    (apply_feedback state ev cfg).n_strong_updates = state.n_strong_updates ∧
    (apply_feedback state ev cfg).n_completed_cycles = state.n_completed_cycles ∧
    (apply_feedback state ev cfg).censored_cycles = state.censored_cycles ∧
    (apply_feedback state ev cfg).waste_events = state.waste_events ∧
    (apply_feedback state ev cfg).last_feedback_at = some ev.ts ∧
    (apply_feedback state ev cfg).last_update_at = ev.ts ∧
    (apply_feedback state ev cfg).n_total_updates = state.n_total_updates + 1 := by
  rcases h with h | h <;> simp [apply_feedback, h]

theorem more_less_feedback_frame_witness :
    ((⟨3, .MORE, .MANUAL, 9/10, none⟩ : FeedbackEvent).kind = .MORE ∨
      (⟨3, .MORE, .MANUAL, 9/10, none⟩ : FeedbackEvent).kind = .LESS) ∧
    ((apply_feedback ⟨7, 2, some 1, some 1, 1, 0, 0, 0, none, 0, 0, none, none, none⟩
        ⟨3, .MORE, .MANUAL, 9/10, none⟩ default_config).cycle_mean_days = 7 ∧ True) :=
  ⟨Or.inl rfl,
    (more_less_feedback_frame ⟨7, 2, some 1, some 1, 1, 0, 0, 0, none, 0, 0, none, none, none⟩
      ⟨3, .MORE, .MANUAL, 9/10, none⟩ default_config (Or.inl rfl)).1, trivial⟩

/-- C4 counterexample: with `cycle_mean_days = 90` and `days_left` 1.5, one
decay step yields `days_left` 0.5 > 0 yet the derived coarse state is EMPTY
(the 2 percent ratio rule), refuting "EMPTY iff new days_left ≤ 0". -/
theorem daily_decay_empty_with_positive_days_left :
    (daily_state_step ⟨90, 2, none, none, 0, 0, 0, 0, none, 0, 0, none, none, none⟩
        (3/2) 1 default_config).1 = 1/2 ∧
    (daily_state_step ⟨90, 2, none, none, 0, 0, 0, 0, none, 0, 0, none, none, none⟩
        (3/2) 1 default_config).2.1 = InventoryState.EMPTY ∧
    ¬ ((1:ℚ)/2 ≤ 0) := by
  refine ⟨?_, ?_, by norm_num⟩ <;>
    norm_num [daily_state_step, derive_state, pymax, pymin, default_config]

/-- C4 (amended): one decay step for a non-EMPTY product with numeric
days_left `d0` persists `d1 = max(d0 - 1, 0)`, and the persisted coarse state
is EMPTY iff `d1 ≤ 0` or `d1` is below 2 percent of
`max(cycle_mean_days, 1e-6)`. -/
theorem daily_decay_days_left_and_empty_condition (state : CycleEmaState) (d0 now : ℚ)
    (cfg : PredictorConfig) :
    (daily_state_step state d0 now cfg).1 = pymax 0 (d0 - 1) ∧
    ((daily_state_step state d0 now cfg).2.1 = InventoryState.EMPTY ↔
      pymax 0 (d0 - 1) ≤ 0 ∨
        pymax 0 (d0 - 1) / pymax state.cycle_mean_days (1/1000000) < 1/50) := by
  constructor
  · simp only [daily_state_step]
  · have hst : (daily_state_step state d0 now cfg).2.1
        = derive_state (pymax 0 (d0 - 1)) state.cycle_mean_days cfg := by
      simp only [daily_state_step]
      split_ifs <;> rfl
    rw [hst, derive_state_eq_empty_iff]

/-- C6 counterexample: a REPURCHASE row with no note and no delta_state maps
to no event at all — the action check at ema_cycle_predictor.py line 626 only
recognizes PURCHASE and RESET. -/
theorem repurchase_row_maps_to_no_event :
    map_inventory_log_row_to_event 0
        ⟨some ("REPURCHASE".toList), none, some 3, some ("MANUAL".toList), none⟩
      = (none, none) := by
  decide

/-- C6 (amended): rows whose action uppercases to PURCHASE or RESET map to a
Purchase event timestamped at the row's `occurred_at` (falling back to `now`)
and no Feedback event, regardless of note and delta_state; REPURCHASE rows
are not matched by this action check. -/
theorem purchase_reset_rows_map_to_purchase (now : ℚ) (row : InventoryLogRow)
    (h : upperStr (row.action.getD []) = "PURCHASE".toList ∨
      upperStr (row.action.getD []) = "RESET".toList) :
    (map_inventory_log_row_to_event now row).2 = none ∧
    ∃ p : PurchaseEvent, (map_inventory_log_row_to_event now row).1 = some p ∧
      p.ts = row.occurred_at.getD now := by
  simp only [map_inventory_log_row_to_event]
  rw [if_pos h]
  exact ⟨rfl, _, rfl, rfl⟩

theorem purchase_reset_rows_map_to_purchase_witness :
    (upperStr ((InventoryLogRow.mk (some ("reset".toList)) (some ("EMPTY".toList)) (some 4)
        none (some ("more".toList))).action.getD []) = "PURCHASE".toList ∨
      upperStr ((InventoryLogRow.mk (some ("reset".toList)) (some ("EMPTY".toList)) (some 4)
        none (some ("more".toList))).action.getD []) = "RESET".toList) ∧
    ((map_inventory_log_row_to_event 9 (InventoryLogRow.mk (some ("reset".toList))
        (some ("EMPTY".toList)) (some 4) none (some ("more".toList)))).2 = none ∧
      ∃ p : PurchaseEvent,
        (map_inventory_log_row_to_event 9 (InventoryLogRow.mk (some ("reset".toList))
          (some ("EMPTY".toList)) (some 4) none (some ("more".toList)))).1 = some p ∧
        p.ts = (InventoryLogRow.mk (some ("reset".toList)) (some ("EMPTY".toList)) (some 4)
          none (some ("more".toList))).occurred_at.getD 9) :=
  ⟨Or.inr (by decide),
    purchase_reset_rows_map_to_purchase 9
      (InventoryLogRow.mk (some ("reset".toList)) (some ("EMPTY".toList)) (some 4)
        none (some ("more".toList))) (Or.inr (by decide))⟩

/-- The mapper never emits a Feedback event alongside a Purchase event. -/
theorem map_purchase_no_feedback (now : ℚ) (row : InventoryLogRow) (p : PurchaseEvent)
    (h : (map_inventory_log_row_to_event now row).1 = some p) :
    (map_inventory_log_row_to_event now row).2 = none := by
  simp only [map_inventory_log_row_to_event] at h ⊢
  by_cases ha : upperStr (row.action.getD []) = "PURCHASE".toList ∨
      upperStr (row.action.getD []) = "RESET".toList
  · rw [if_pos ha]
  · rw [if_neg ha] at h ⊢
    cases hpf : parse_feedback_from_note row.note with
    | some fb =>
      rw [hpf] at h
      simp at h
    | none =>
      rw [hpf] at h
      dsimp only at h ⊢
      by_cases hd : upperStr (row.delta_state.getD []) = "EMPTY".toList
      · rw [if_pos hd] at h
        simp at h
      · rw [if_neg hd] at h ⊢
        by_cases hd2 : upperStr (row.delta_state.getD []) = "FULL".toList
        · rw [if_pos hd2]
        · rw [if_neg hd2] at h
          simp at h

/-- C2: whenever the Supabase dispatcher classifies a log row as a Purchase
event, the forecast it computes and persists is `predict` of the
post-purchase state with multiplier 1.0 — independent of the resolved
active-habit multiplier `mult`. -/
theorem process_inventory_log_purchase_uses_multiplier_one (row : InventoryLogRow)
    (state : CycleEmaState) (current_state : Option InventoryState) (mult now : ℚ)
    (cfg : PredictorConfig) (p : PurchaseEvent)
    (h : (map_inventory_log_row_to_event now row).1 = some p) :
    process_inventory_log_forecast row state current_state mult now cfg
      = predict (apply_purchase state p cfg current_state) now 1 cfg none := by
  have h2 := map_purchase_no_feedback now row p h
  simp only [process_inventory_log_forecast, h, h2, predict_after_purchase]

theorem process_inventory_log_purchase_uses_multiplier_one_witness :
    (map_inventory_log_row_to_event 0 (InventoryLogRow.mk (some ("PURCHASE".toList)) none
        (some 5) (some ("RECEIPT".toList)) none)).1
      = some (PurchaseEvent.mk 5 .RECEIPT 1) ∧
    process_inventory_log_forecast (InventoryLogRow.mk (some ("PURCHASE".toList)) none
        (some 5) (some ("RECEIPT".toList)) none)
        ⟨7, 2, none, none, 0, 0, 0, 0, none, 0, 0, none, none, none⟩ none 3 5 default_config
      = predict (apply_purchase ⟨7, 2, none, none, 0, 0, 0, 0, none, 0, 0, none, none, none⟩
          (PurchaseEvent.mk 5 .RECEIPT 1) default_config none) 5 1 default_config none :=
  ⟨by decide,
    process_inventory_log_purchase_uses_multiplier_one
      (InventoryLogRow.mk (some ("PURCHASE".toList)) none (some 5) (some ("RECEIPT".toList)) none)
      ⟨7, 2, none, none, 0, 0, 0, 0, none, 0, 0, none, none, none⟩ none 3 5 default_config
      (PurchaseEvent.mk 5 .RECEIPT 1) (by decide)⟩

/-- C10: in the Postgres adapter, any log row classified as a Purchase event
makes `process_inventory_log` fail (the call at
predictor_service_postgres.py line 315 omits the required `cfg` argument of
`apply_purchase`), so no state, inventory, or forecast write is issued. -/
theorem postgres_purchase_dispatch_errors_before_persisting (row : InventoryLogRow)
    (state : CycleEmaState) (mult now : ℚ) (cfg : PredictorConfig) (p : PurchaseEvent)
    (h : (map_inventory_log_row_to_event now row).1 = some p) :
    PantryPredictorService_process_inventory_log row state mult now cfg
      = .error .apply_purchase_missing_cfg_arg := by
  simp only [PantryPredictorService_process_inventory_log, h]

theorem postgres_purchase_dispatch_errors_before_persisting_witness :
    (map_inventory_log_row_to_event 0 (InventoryLogRow.mk (some ("PURCHASE".toList)) none
        (some 5) (some ("MANUAL".toList)) none)).1
      = some (PurchaseEvent.mk 5 .MANUAL 1) ∧
    PantryPredictorService_process_inventory_log (InventoryLogRow.mk (some ("PURCHASE".toList))
        none (some 5) (some ("MANUAL".toList)) none)
        ⟨7, 2, none, none, 0, 0, 0, 0, none, 0, 0, none, none, none⟩ 1 0 default_config
      = .error .apply_purchase_missing_cfg_arg :=
  ⟨by decide,
    postgres_purchase_dispatch_errors_before_persisting
      (InventoryLogRow.mk (some ("PURCHASE".toList)) none (some 5) (some ("MANUAL".toList)) none)
      ⟨7, 2, none, none, 0, 0, 0, 0, none, 0, 0, none, none, none⟩ 1 0 default_config
      (PurchaseEvent.mk 5 .MANUAL 1) (by decide)⟩

/-- C9 counterexample: the Postgres resolver has no exception handler around
the habits query, so a fetch error propagates to the caller instead of
yielding multiplier 1.0. -/
theorem postgres_habit_multiplier_propagates_fetch_error :
    PantryRepository_get_active_habit_multiplier (.error ()) ("p".toList) none = .error () ∧
    PantryRepository_get_active_habit_multiplier (.error ()) ("p".toList) none
      ≠ .ok (1 : ℚ) := by
  constructor
  · rfl
  · simp [PantryRepository_get_active_habit_multiplier]

/-- C9 (amended): with no active habits both resolvers return exactly 1.0;
on a fetch error the Supabase resolver swallows the error and returns 1.0,
while the Postgres resolver propagates it. -/
theorem habit_multiplier_identity_and_error_handling :
    (∀ (pid : Str) (cid : Option Str),
      SupabasePantryRepository_get_active_habit_multiplier (.ok []) pid cid = 1 ∧
      PantryRepository_get_active_habit_multiplier (.ok []) pid cid = .ok 1) ∧
    (∀ (e : Unit) (pid : Str) (cid : Option Str),
      SupabasePantryRepository_get_active_habit_multiplier (.error e) pid cid = 1 ∧
      PantryRepository_get_active_habit_multiplier (.error e) pid cid = .error e) := by
  refine ⟨fun pid cid => ⟨rfl, ?_⟩, fun e pid cid => ⟨rfl, rfl⟩⟩
  have : pymax ((List.foldl (fun m eff => habit_effects_step m eff pid cid) 1 [])) (1/1000000)
      = (1 : ℚ) := by
    norm_num [pymax]
  simp only [PantryRepository_get_active_habit_multiplier, this]

/-! ## Event sequences over a predictor state (for the invariant claims) -/

/-- A call to one of the two state-transforming core operations. -/
inductive PredictorOp
  | purchase (ev : PurchaseEvent) (current_state : Option InventoryState)
  | feedback (ev : FeedbackEvent)

def apply_op (cfg : PredictorConfig) (s : CycleEmaState) : PredictorOp → CycleEmaState
  | .purchase ev current_state => apply_purchase s ev cfg current_state
  | .feedback ev => apply_feedback s ev cfg

def apply_ops (cfg : PredictorConfig) (s : CycleEmaState) (ops : List PredictorOp) : CycleEmaState :=
  ops.foldl (apply_op cfg) s

/-- The spec's state-bounds invariant. -/
def state_bounds (cfg : PredictorConfig) (s : CycleEmaState) : Prop :=
  cfg.min_cycle_days ≤ s.cycle_mean_days ∧
  s.cycle_mean_days ≤ cfg.max_cycle_days ∧
  1/10 ≤ s.cycle_mad_days

theorem apply_purchase_update_bounds (s : CycleEmaState) (cfg : PredictorConfig) (o : ℚ)
    (h : cfg.min_cycle_days ≤ cfg.max_cycle_days) :
    state_bounds cfg (apply_purchase_update s cfg o) := by
  refine ⟨le_clamp _ _ _, clamp_le _ _ _ h, le_clamp _ _ _⟩

theorem apply_purchase_bounds (s : CycleEmaState) (ev : PurchaseEvent) (cfg : PredictorConfig)
    (current_state : Option InventoryState)
    (h : cfg.min_cycle_days ≤ cfg.max_cycle_days)
    (hs : state_bounds cfg s) :
    state_bounds cfg (apply_purchase s ev cfg current_state) := by
  have hupd := apply_purchase_update_bounds s cfg
  simp only [apply_purchase]
  rcases s.empty_at with _ | e <;> rcases s.cycle_started_at with _ | c <;> dsimp only
  · exact ⟨hs.1, hs.2.1, hs.2.2⟩
  · split_ifs with h1 h2
    · exact hupd _ h
    · exact ⟨hs.1, hs.2.1, hs.2.2⟩
    · exact ⟨hs.1, hs.2.1, hs.2.2⟩
  · exact ⟨hs.1, hs.2.1, hs.2.2⟩
  · exact hupd _ h

theorem apply_feedback_bounds (s : CycleEmaState) (ev : FeedbackEvent) (cfg : PredictorConfig)
    (h : cfg.min_cycle_days ≤ cfg.max_cycle_days)
    (hs : state_bounds cfg s) :
    state_bounds cfg (apply_feedback s ev cfg) := by
  simp only [apply_feedback]
  cases ev.kind <;> dsimp only
  · exact ⟨hs.1, hs.2.1, hs.2.2⟩
  · exact ⟨hs.1, hs.2.1, hs.2.2⟩
  · exact ⟨hs.1, hs.2.1, le_clamp _ _ _⟩
  · split_ifs <;> exact ⟨hs.1, hs.2.1, hs.2.2⟩
  · split_ifs with h1 h2
    · exact ⟨hs.1, hs.2.1, le_clamp _ _ _⟩
    · rcases s.cycle_started_at with _ | c <;> dsimp only
      · exact ⟨hs.1, hs.2.1, hs.2.2⟩
      · exact ⟨le_clamp _ _ _, clamp_le _ _ _ h, le_clamp _ _ _⟩
    · exact ⟨hs.1, hs.2.1, le_clamp _ _ _⟩

theorem apply_ops_bounds (cfg : PredictorConfig)
    (h : cfg.min_cycle_days ≤ cfg.max_cycle_days) :
    ∀ (ops : List PredictorOp) (s : CycleEmaState), state_bounds cfg s →
      state_bounds cfg (apply_ops cfg s ops) := by
  intro ops
  induction ops with
  | nil => intro s hs; exact hs
  | cons op rest ih =>
    intro s hs
    have hstep : state_bounds cfg (apply_op cfg s op) := by
      cases op with
      | purchase ev current_state => exact apply_purchase_bounds s ev cfg current_state h hs
      | feedback ev => exact apply_feedback_bounds s ev cfg h hs
    exact ih (apply_op cfg s op) hstep

theorem init_state_bounds (cid : Option Str) (cfg : PredictorConfig) (t0 : ℚ)
    (h : cfg.min_cycle_days ≤ cfg.max_cycle_days) :
    state_bounds cfg (init_state_from_category cid cfg t0) := by
  exact ⟨le_clamp _ _ _, clamp_le _ _ _ h, le_pymax_right _ _⟩

/-- C3: any state obtained from `init_state_from_category` by a finite
sequence of `apply_purchase` / `apply_feedback` calls keeps
`min_cycle_days ≤ cycle_mean_days ≤ max_cycle_days` and
`cycle_mad_days ≥ 0.1` (stated for any configuration whose bounds are
ordered, which covers the defaults). -/
theorem state_bounds_invariant (cfg : PredictorConfig)
    (h : cfg.min_cycle_days ≤ cfg.max_cycle_days)
    (cid : Option Str) (t0 : ℚ) (ops : List PredictorOp) :
    state_bounds cfg (apply_ops cfg (init_state_from_category cid cfg t0) ops) :=
  apply_ops_bounds cfg h ops _ (init_state_bounds cid cfg t0 h)

theorem state_bounds_invariant_witness :
    default_config.min_cycle_days ≤ default_config.max_cycle_days ∧
    state_bounds default_config (apply_ops default_config
      (init_state_from_category none default_config 0)
      [.purchase ⟨2, .SYSTEM, 1⟩ none,
       .feedback ⟨5, .EMPTY, .MANUAL, 9/10, none⟩,
       .purchase ⟨6, .SYSTEM, 1⟩ none,
       .feedback ⟨7, .EXACT, .MANUAL, 9/10, none⟩]) :=
  ⟨by norm_num [default_config],
    state_bounds_invariant default_config (by norm_num [default_config]) none 0 _⟩

/-! ## Cold-start prediction value -/

theorem days_between_self (t : ℚ) : _days_between t t = 0 := by
  simp [_days_between, pyabs]

theorem cold_start_state_fields (t0 : ℚ) :
    (init_state_from_category none default_config t0).cycle_mean_days = 7 ∧
    (init_state_from_category none default_config t0).cycle_mad_days = 2 := by
  constructor <;> norm_num [init_state_from_category, _clamp, pymax, pymin, default_config]

/-- The exact confidence of a fresh default-config state evaluated at its own
initialization time: `0.2 + 0.8 · 0.3 · (5/7) · 1 = 13/35`. -/
theorem cold_start_confidence_value (t0 : ℚ) :
    compute_confidence (init_state_from_category none default_config t0) t0 default_config
      = 13/35 := by
  obtain ⟨hmean, hmad⟩ := cold_start_state_fields t0
  have hlu : (init_state_from_category none default_config t0).last_update_at = t0 := rfl
  have hnc : (init_state_from_category none default_config t0).n_completed_cycles = 0 := rfl
  have hns : (init_state_from_category none default_config t0).n_strong_updates = 0 := rfl
  have htau : (default_config.recency_tau_days : ℚ) = 21 := rfl
  simp only [compute_confidence, hmean, hmad, hlu, hnc, hns, htau, days_between_self]
  norm_num [Real.exp_zero]

/-- C7 counterexample: with the fallback prior (7.0, 2.0), default config and
multiplier 1.0, the cold-start confidence equals 13/35 ≈ 0.371, which is more
than 0.05 away from the claimed ≈ 0.44 (= 11/25): the spec's arithmetic took
stability to be 1.0 where the code computes `1 - 2/7 = 5/7`. -/
theorem cold_start_confidence_is_not_044 :
    (predict (init_state_from_category none default_config 0) 0 1 default_config
        none).confidence = 13/35 ∧
    (1:ℝ)/20 < |(13:ℝ)/35 - 11/25| := by
  constructor
  · exact cold_start_confidence_value 0
  · rw [abs_sub_comm, abs_of_nonneg (by norm_num)]
    norm_num

/-- C7 (amended): for a fresh default-config state with the fallback category
prior (7.0, 2.0) and no events, `predict` at the initialization time with
multiplier 1.0 returns `expected_days_left = 0`, `predicted_state = EMPTY`,
and confidence `0.2 + 0.8·0.3·(5/7)·1.0 = 13/35 ≈ 0.371`. -/
theorem cold_start_prediction (t0 : ℚ) :
    (predict (init_state_from_category none default_config t0) t0 1 default_config
        none).expected_days_left = 0 ∧
    (predict (init_state_from_category none default_config t0) t0 1 default_config
        none).predicted_state = InventoryState.EMPTY ∧
    (predict (init_state_from_category none default_config t0) t0 1 default_config
        none).confidence = 13/35 := by
  have hstart : (init_state_from_category none default_config t0).cycle_started_at = none := rfl
  have hdays : compute_days_left (init_state_from_category none default_config t0) t0 1
      default_config none = 0 := by
    simp [compute_days_left, hstart]
  refine ⟨?_, ?_, cold_start_confidence_value t0⟩
  · simp [predict, hdays]
  · simp [predict, hdays, derive_state]

/-! ## Properties of the logistic helper -/

theorem sigmoid_of_nonneg (x : ℝ) (hx : 0 ≤ x) : _sigmoid x = 1 / (1 + Real.exp (-x)) :=
  if_pos hx

theorem one_add_exp_pos (x : ℝ) : 0 < 1 + Real.exp x := by positivity

theorem sigmoid_mono (x y : ℝ) (hx : 0 ≤ x) (hxy : x ≤ y) : _sigmoid x ≤ _sigmoid y := by
  rw [sigmoid_of_nonneg x hx, sigmoid_of_nonneg y (hx.trans hxy)]
  have hexp : Real.exp (-y) ≤ Real.exp (-x) := Real.exp_le_exp.mpr (neg_le_neg hxy)
  exact one_div_le_one_div_of_le (one_add_exp_pos _) (by linarith)

theorem sigmoid_strict_mono (x y : ℝ) (hx : 0 ≤ x) (hxy : x < y) : _sigmoid x < _sigmoid y := by
  rw [sigmoid_of_nonneg x hx, sigmoid_of_nonneg y (hx.trans hxy.le)]
  have hexp : Real.exp (-y) < Real.exp (-x) := Real.exp_lt_exp.mpr (neg_lt_neg hxy)
  exact one_div_lt_one_div_of_lt (one_add_exp_pos _) (by linarith)

theorem half_lt_sigmoid (x : ℝ) (hx : 0 < x) : 1/2 < _sigmoid x := by
  rw [sigmoid_of_nonneg x hx.le]
  have h1 : Real.exp (-x) < 1 := Real.exp_lt_one_iff.mpr (by linarith)
  have h2 : 0 < 1 + Real.exp (-x) := one_add_exp_pos _
  rw [lt_div_iff h2]
  linarith

theorem sigmoid_lt_one (x : ℝ) (hx : 0 ≤ x) : _sigmoid x < 1 := by
  rw [sigmoid_of_nonneg x hx, div_lt_one (one_add_exp_pos _)]
  linarith [Real.exp_pos (-x)]

theorem sigmoid_pos (x : ℝ) (hx : 0 ≤ x) : 0 < _sigmoid x := by
  rw [sigmoid_of_nonneg x hx]
  positivity

/-- The evidence term of `compute_confidence` is monotone in the completed
cycle count as long as the start is at least one completed cycle or there is
at most one strong update to fall back to. -/
theorem evidence_mono (n m strong : ℕ) (hm : n ≤ m) (hg : 1 ≤ n ∨ strong ≤ 1) :
    (if (if 0 < n then n else strong) = 0 then (3/10 : ℝ)
      else _sigmoid (((if 0 < n then n else strong : ℕ) : ℝ) / 2)) ≤
    (if (if 0 < m then m else strong) = 0 then (3/10 : ℝ)
      else _sigmoid (((if 0 < m then m else strong : ℕ) : ℝ) / 2)) := by
  by_cases hn : 0 < n
  · have hm0 : 0 < m := lt_of_lt_of_le hn hm
    rw [if_pos hn, if_pos hm0, if_neg (by omega : ¬ n = 0), if_neg (by omega : ¬ m = 0)]
    apply sigmoid_mono _ _ (by positivity)
    have : (n : ℝ) ≤ (m : ℝ) := Nat.cast_le.mpr hm
    linarith
  · rcases hg with hg | hg
    · omega
    · by_cases hm0 : 0 < m
      · rw [if_neg hn, if_pos hm0, if_neg (by omega : ¬ m = 0)]
        have hs2 : _sigmoid (1/2) ≤ _sigmoid ((m : ℝ) / 2) := by
          apply sigmoid_mono _ _ (by norm_num)
          have : (1 : ℝ) ≤ (m : ℝ) := by exact_mod_cast hm0
          linarith
        interval_cases strong
        · rw [if_pos rfl]
          have hh : (1:ℝ)/2 < _sigmoid (1/2) := half_lt_sigmoid _ (by norm_num)
          have : ((1:ℕ) : ℝ) / 2 = 1/2 := by norm_num
          linarith
        · rw [if_neg (by omega : ¬ (1:ℕ) = 0)]
          have : (((1:ℕ) : ℝ)) / 2 = 1/2 := by norm_num
          rw [this]
          exact hs2
      · have hm' : m = 0 := by omega
        have hn' : n = 0 := by omega
        subst hm'
        subst hn'
        exact le_rfl

/-- C5 counterexample: two states identical except for the counts
(`n_strong_updates = 2`, and `n_completed_cycles` 0 versus 1): moving from 0
to 1 completed cycle strictly decreases the confidence, because at 0 the
evidence falls back to `sigmoid(2/2)` over the strong updates while at 1 it
is the smaller `sigmoid(1/2)`. -/
theorem confidence_not_monotone_in_completed_cycles :
    compute_confidence ⟨7, 2, none, none, 0, 2, 0, 1, none, 0, 0, none, none, none⟩
        0 default_config
      < compute_confidence ⟨7, 2, none, none, 0, 2, 0, 0, none, 0, 0, none, none, none⟩
        0 default_config := by
  have hy0 : (0:ℝ) < _sigmoid 1 := sigmoid_pos 1 (by norm_num)
  have hy1 : _sigmoid 1 < 1 := sigmoid_lt_one 1 (by norm_num)
  have hx0 : (0:ℝ) < _sigmoid (1/2) := sigmoid_pos _ (by norm_num)
  have hx1 : _sigmoid (1/2) < 1 := sigmoid_lt_one _ (by norm_num)
  have hxy : _sigmoid (1/2) < _sigmoid 1 := sigmoid_strict_mono _ _ (by norm_num) (by norm_num)
  have hA : compute_confidence ⟨7, 2, none, none, 0, 2, 0, 0, none, 0, 0, none, none, none⟩
      0 default_config = 1/5 + 4/5 * _sigmoid 1 * (5/7) := by
    simp only [compute_confidence, days_between_self]
    norm_num
    rw [min_eq_right (by nlinarith), max_eq_right (by nlinarith)]
  have hB : compute_confidence ⟨7, 2, none, none, 0, 2, 0, 1, none, 0, 0, none, none, none⟩
      0 default_config = 1/5 + 4/5 * _sigmoid (1/2) * (5/7) := by
    simp only [compute_confidence, days_between_self]
    norm_num
    rw [min_eq_right (by nlinarith), max_eq_right (by nlinarith)]
  rw [hA, hB]
  nlinarith

/-- C5 (amended): `compute_confidence` always lies in [0, 1], with no
condition on the state; holding every other field fixed it is non-decreasing
in `n_completed_cycles` provided the smaller count is at least 1 or
`n_strong_updates ≤ 1` (from 0 completed cycles the evidence falls back to
`n_strong_updates`, so with 2 or more strong updates the step from 0 to 1 can
decrease it). -/
theorem confidence_bounds_and_guarded_monotonicity (s : CycleEmaState) (now : ℚ)
    (cfg : PredictorConfig) (m : ℕ) :
    (0 ≤ compute_confidence s now cfg ∧ compute_confidence s now cfg ≤ 1) ∧
    (s.n_completed_cycles ≤ m →
      (1 ≤ s.n_completed_cycles ∨ s.n_strong_updates ≤ 1) →
      compute_confidence s now cfg
        ≤ compute_confidence { s with n_completed_cycles := m } now cfg) := by
  constructor
  · constructor
    · simp only [compute_confidence]
      exact le_max_left _ _
    · simp only [compute_confidence]
      exact max_le (by norm_num) (min_le_left _ _)
  · intro hm hg
    have hE := evidence_mono s.n_completed_cycles m s.n_strong_updates hm hg
    simp only [compute_confidence]
    refine max_le_max le_rfl (min_le_min le_rfl (add_le_add_left ?_ _))
    refine mul_le_mul_of_nonneg_right (mul_le_mul_of_nonneg_right
      (mul_le_mul_of_nonneg_left hE (by norm_num)) ?_) ?_
    · exact le_trans (by norm_num) (le_max_left _ _)
    · exact le_trans (by norm_num) (le_max_left _ _)

theorem confidence_bounds_and_guarded_monotonicity_witness :
    ((0 ≤ compute_confidence ⟨7, 2, none, none, 0, 0, 0, 1, none, 0, 0, none, none, none⟩
        2 default_config ∧
      compute_confidence ⟨7, 2, none, none, 0, 0, 0, 1, none, 0, 0, none, none, none⟩
        2 default_config ≤ 1) ∧
      ((⟨7, 2, none, none, 0, 0, 0, 1, none, 0, 0, none, none, none⟩ :
          CycleEmaState).n_completed_cycles ≤ 3 ∧
        (1 ≤ (⟨7, 2, none, none, 0, 0, 0, 1, none, 0, 0, none, none, none⟩ :
          CycleEmaState).n_completed_cycles ∨
          (⟨7, 2, none, none, 0, 0, 0, 1, none, 0, 0, none, none, none⟩ :
          CycleEmaState).n_strong_updates ≤ 1) ∧
        compute_confidence ⟨7, 2, none, none, 0, 0, 0, 1, none, 0, 0, none, none, none⟩
            2 default_config
          ≤ compute_confidence { (⟨7, 2, none, none, 0, 0, 0, 1, none, 0, 0, none, none, none⟩ :
              CycleEmaState) with n_completed_cycles := 3 } 2 default_config)) :=
  ⟨(confidence_bounds_and_guarded_monotonicity
      ⟨7, 2, none, none, 0, 0, 0, 1, none, 0, 0, none, none, none⟩ 2 default_config 3).1,
    by decide, Or.inl (by decide),
    (confidence_bounds_and_guarded_monotonicity
      ⟨7, 2, none, none, 0, 0, 0, 1, none, 0, 0, none, none, none⟩ 2 default_config 3).2
      (by decide) (Or.inl (by decide))⟩

/-! ## Purchase / EMPTY / Purchase cycles and the cumulative average -/

/-- One `Purchase` at `pe.1` followed by one `Feedback(EMPTY)` at `pe.2`. -/
def purchase_empty_step (cfg : PredictorConfig) (s : CycleEmaState) (pe : ℚ × ℚ) : CycleEmaState :=
  apply_feedback (apply_purchase s ⟨pe.1, .SYSTEM, 1⟩ cfg none) ⟨pe.2, .EMPTY, .MANUAL, 9/10, none⟩ cfg

def run_purchase_empty_pairs (cfg : PredictorConfig) (s : CycleEmaState)
    (l : List (ℚ × ℚ)) : CycleEmaState :=
  l.foldl (purchase_empty_step cfg) s

/-- The observed cycle length of a (purchase time, empty time) pair:
`|empty_at - cycle_started_at|`. -/
def observed_len (pe : ℚ × ℚ) : ℚ := _days_between pe.2 pe.1

theorem apply_purchase_close (s : CycleEmaState) (ev : PurchaseEvent) (cfg : PredictorConfig)
    (current_state : Option InventoryState) (e p : ℚ)
    (he : s.empty_at = some e) (hp : s.cycle_started_at = some p) :
    apply_purchase s ev cfg current_state
      = { apply_purchase_update s cfg
            (_clamp (_days_between e p) cfg.min_cycle_days cfg.max_cycle_days) with
          cycle_started_at := some ev.ts
          last_purchase_at := some ev.ts
          last_update_at := ev.ts
          empty_at := none } := by
  simp only [apply_purchase, he, hp]

theorem apply_purchase_fresh (s : CycleEmaState) (ev : PurchaseEvent) (cfg : PredictorConfig)
    (current_state : Option InventoryState) (hp : s.cycle_started_at = none) :
    apply_purchase s ev cfg current_state
      = { s with
          cycle_started_at := some ev.ts
          last_purchase_at := some ev.ts
          last_update_at := ev.ts
          empty_at := none } := by
  simp only [apply_purchase, hp]

theorem apply_feedback_empty_sets (s : CycleEmaState) (ev : FeedbackEvent) (cfg : PredictorConfig)
    (hk : ev.kind = .EMPTY) (he : s.empty_at = none) :
    apply_feedback s ev cfg
      = { s with
          last_update_at := ev.ts
          n_total_updates := s.n_total_updates + 1
          empty_at := some ev.ts } := by
  simp [apply_feedback, hk, he]

/-- Accumulator relating a state to the observed cycle lengths it has folded
in: the completed-cycle count matches, all observations are within the config
bounds, and (once nonempty) the mean times the count equals their sum. -/
def cycles_acc (cfg : PredictorConfig) (s : CycleEmaState) (A : List ℚ) : Prop :=
  s.n_completed_cycles = A.length ∧
  (∀ a ∈ A, cfg.min_cycle_days ≤ a ∧ a ≤ cfg.max_cycle_days) ∧
  (A ≠ [] → s.cycle_mean_days * A.length = A.sum)

theorem length_mul_le_sum (A : List ℚ) (lo : ℚ) (h : ∀ a ∈ A, lo ≤ a) :
    (A.length : ℚ) * lo ≤ A.sum := by
  induction A with
  | nil => simp
  | cons a t ih =>
    simp only [List.length_cons, List.sum_cons]
    have h1 := h a (List.mem_cons_self a t)
    have h2 := ih (fun x hx => h x (List.mem_cons_of_mem a hx))
    push_cast
    linarith

theorem sum_le_length_mul (A : List ℚ) (hi : ℚ) (h : ∀ a ∈ A, a ≤ hi) :
    A.sum ≤ (A.length : ℚ) * hi := by
  induction A with
  | nil => simp
  | cons a t ih =>
    simp only [List.length_cons, List.sum_cons]
    have h1 := h a (List.mem_cons_self a t)
    have h2 := ih (fun x hx => h x (List.mem_cons_of_mem a hx))
    push_cast
    linarith

theorem apply_purchase_update_acc (s : CycleEmaState) (cfg : PredictorConfig)
    (A : List ℚ) (o : ℚ) (hacc : cycles_acc cfg s A)
    (hlo : cfg.min_cycle_days ≤ o) (hhi : o ≤ cfg.max_cycle_days) :
    cycles_acc cfg (apply_purchase_update s cfg o) (A ++ [o]) := by
  obtain ⟨hlen, hbnd, hmean⟩ := hacc
  refine ⟨?_, ?_, ?_⟩
  · simp [apply_purchase_update, hlen]
  · intro a ha
    rcases List.mem_append.mp ha with ha | ha
    · exact hbnd a ha
    · simp only [List.mem_singleton] at ha
      subst ha
      exact ⟨hlo, hhi⟩
  · intro _
    by_cases hA : A = []
    · subst hA
      have hn : s.n_completed_cycles = 0 := by simpa using hlen
      have hm : (apply_purchase_update s cfg o).cycle_mean_days = o := by
        simp only [apply_purchase_update, hn, if_pos rfl]
        exact clamp_eq_of_mem _ _ _ hlo hhi
      simp [hm]
    · have hnz : (A.length : ℚ) + 1 ≠ 0 := by positivity
      have hn : ¬ s.n_completed_cycles = 0 := by
        rw [hlen]
        exact fun hc => hA (List.length_eq_zero.mp hc)
      have hmean' := hmean hA
      have hsum_lo : (A.length : ℚ) * cfg.min_cycle_days ≤ A.sum :=
        length_mul_le_sum A _ (fun a ha => (hbnd a ha).1)
      have hsum_hi : A.sum ≤ (A.length : ℚ) * cfg.max_cycle_days :=
        sum_le_length_mul A _ (fun a ha => (hbnd a ha).2)
      have hpos : (0:ℚ) < (A.length : ℚ) + 1 := by positivity
      have hlo' : cfg.min_cycle_days ≤ (A.sum + o) / ((A.length : ℚ) + 1) := by
        rw [le_div_iff hpos]
        nlinarith
      have hhi' : (A.sum + o) / ((A.length : ℚ) + 1) ≤ cfg.max_cycle_days := by
        rw [div_le_iff hpos]
        nlinarith
      have h1 : (apply_purchase_update s cfg o).cycle_mean_days
          = _clamp ((s.cycle_mean_days * (s.n_completed_cycles : ℚ) + o)
              / ((s.n_completed_cycles : ℚ) + 1)) cfg.min_cycle_days cfg.max_cycle_days := by
        simp only [apply_purchase_update, if_neg hn]
      have hm : (apply_purchase_update s cfg o).cycle_mean_days
          = (A.sum + o) / ((A.length : ℚ) + 1) := by
        rw [h1, hlen, hmean']
        exact clamp_eq_of_mem _ _ _ hlo' hhi'
      rw [hm]
      have hlen2 : (((A ++ [o]).length : ℕ) : ℚ) = (A.length : ℚ) + 1 := by
        push_cast [List.length_append, List.length_singleton]
        ring
      rw [hlen2, div_mul_cancel₀ _ hnz]
      simp

/-- Folding further Purchase/EMPTY pairs over a state holding a pending cycle
`(p, e)` and then closing with a final purchase accumulates every observed
cycle length. -/
theorem run_pairs_close_acc (cfg : PredictorConfig) (tf : ℚ) :
    ∀ (l : List (ℚ × ℚ)) (s : CycleEmaState) (A : List ℚ) (p e : ℚ),
      cycles_acc cfg s A →
      s.cycle_started_at = some p → s.empty_at = some e →
      cfg.min_cycle_days ≤ _days_between e p → _days_between e p ≤ cfg.max_cycle_days →
      (∀ pe ∈ l, cfg.min_cycle_days ≤ observed_len pe ∧ observed_len pe ≤ cfg.max_cycle_days) →
      cycles_acc cfg
        (apply_purchase (run_purchase_empty_pairs cfg s l) ⟨tf, .SYSTEM, 1⟩ cfg none)
        (A ++ _days_between e p :: l.map observed_len) := by
  intro l
  induction l with
  | nil =>
    intro s A p e hacc hp he hlo hhi _
    have hrun : run_purchase_empty_pairs cfg s [] = s := rfl
    rw [hrun, apply_purchase_close s _ cfg none e p he hp, clamp_eq_of_mem _ _ _ hlo hhi]
    have huacc := apply_purchase_update_acc s cfg A _ hacc hlo hhi
    simpa using huacc
  | cons pe rest ih =>
    intro s A p e hacc hp he hlo hhi hb
    have hbpe := hb pe (List.mem_cons_self pe rest)
    have hbrest : ∀ x ∈ rest, cfg.min_cycle_days ≤ observed_len x ∧
        observed_len x ≤ cfg.max_cycle_days :=
      fun x hx => hb x (List.mem_cons_of_mem pe hx)
    have hrun : run_purchase_empty_pairs cfg s (pe :: rest)
        = run_purchase_empty_pairs cfg (purchase_empty_step cfg s pe) rest := rfl
    rw [hrun]
    have hclose := apply_purchase_close s ⟨pe.1, .SYSTEM, 1⟩ cfg none e p he hp
    have hstep : purchase_empty_step cfg s pe
        = { apply_purchase_update s cfg
              (_clamp (_days_between e p) cfg.min_cycle_days cfg.max_cycle_days) with
            cycle_started_at := some pe.1
            last_purchase_at := some pe.1
            last_update_at := pe.2
            n_total_updates := (apply_purchase_update s cfg
              (_clamp (_days_between e p) cfg.min_cycle_days cfg.max_cycle_days)).n_total_updates + 1
            empty_at := some pe.2 } := by
      simp only [purchase_empty_step, hclose]
      rw [apply_feedback_empty_sets _ _ _ rfl rfl]
    have huacc : cycles_acc cfg
        (apply_purchase_update s cfg
          (_clamp (_days_between e p) cfg.min_cycle_days cfg.max_cycle_days))
        (A ++ [_days_between e p]) := by
      rw [clamp_eq_of_mem _ _ _ hlo hhi]
      exact apply_purchase_update_acc s cfg A _ hacc hlo hhi
    have hacc2 : cycles_acc cfg (purchase_empty_step cfg s pe) (A ++ [_days_between e p]) := by
      rw [hstep]
      exact huacc
    have hp2 : (purchase_empty_step cfg s pe).cycle_started_at = some pe.1 := by
      rw [hstep]
    have he2 : (purchase_empty_step cfg s pe).empty_at = some pe.2 := by
      rw [hstep]
    have hres := ih (purchase_empty_step cfg s pe) (A ++ [_days_between e p]) pe.1 pe.2
      hacc2 hp2 he2 hbpe.1 hbpe.2 hbrest
    have hlist : (A ++ [_days_between e p]) ++ _days_between pe.2 pe.1 :: rest.map observed_len
        = A ++ _days_between e p :: (pe :: rest).map observed_len := by
      simp [observed_len]
    rw [hlist] at hres
    exact hres

/-- C1: starting from a freshly initialized state, k Purchase/EMPTY pairs
followed by a closing Purchase (with every observed cycle length
`|empty_at - cycle_started_at|` inside the config bounds) leave
`cycle_mean_days` equal to the arithmetic mean of the k observed lengths,
and `n_completed_cycles = k`; over ℚ the mean is exact. -/
theorem cycle_mean_is_arithmetic_mean (cfg : PredictorConfig) (cid : Option Str) (t0 tf : ℚ)
    (l : List (ℚ × ℚ)) (hne : l ≠ [])
    (hb : ∀ pe ∈ l, cfg.min_cycle_days ≤ observed_len pe ∧
      observed_len pe ≤ cfg.max_cycle_days) :
    (apply_purchase (run_purchase_empty_pairs cfg (init_state_from_category cid cfg t0) l)
        ⟨tf, .SYSTEM, 1⟩ cfg none).cycle_mean_days
      = (l.map observed_len).sum / (l.length : ℚ) ∧
    (apply_purchase (run_purchase_empty_pairs cfg (init_state_from_category cid cfg t0) l)
        ⟨tf, .SYSTEM, 1⟩ cfg none).n_completed_cycles = l.length := by
  rcases l with _ | ⟨pe, rest⟩
  · exact absurd rfl hne
  · have hbpe := hb pe (List.mem_cons_self pe rest)
    have hbrest : ∀ x ∈ rest, cfg.min_cycle_days ≤ observed_len x ∧
        observed_len x ≤ cfg.max_cycle_days :=
      fun x hx => hb x (List.mem_cons_of_mem pe hx)
    have hstep : purchase_empty_step cfg (init_state_from_category cid cfg t0) pe
        = { init_state_from_category cid cfg t0 with
            cycle_started_at := some pe.1
            last_purchase_at := some pe.1
            last_update_at := pe.2
            n_total_updates := (init_state_from_category cid cfg t0).n_total_updates + 1
            empty_at := some pe.2 } := by
      simp only [purchase_empty_step,
        apply_purchase_fresh (init_state_from_category cid cfg t0) _ cfg none rfl]
      rw [apply_feedback_empty_sets _ _ _ rfl rfl]
    have hacc0 : cycles_acc cfg (purchase_empty_step cfg (init_state_from_category cid cfg t0) pe)
        ([] : List ℚ) := by
      rw [hstep]
      refine ⟨rfl, ?_, ?_⟩
      · intro a ha
        simp at ha
      · intro hcon
        exact absurd rfl hcon
    have hp0 : (purchase_empty_step cfg (init_state_from_category cid cfg t0) pe).cycle_started_at
        = some pe.1 := by
      rw [hstep]
    have he0 : (purchase_empty_step cfg (init_state_from_category cid cfg t0) pe).empty_at
        = some pe.2 := by
      rw [hstep]
    have hrun : run_purchase_empty_pairs cfg (init_state_from_category cid cfg t0) (pe :: rest)
        = run_purchase_empty_pairs cfg
            (purchase_empty_step cfg (init_state_from_category cid cfg t0) pe) rest := rfl
    have hres := run_pairs_close_acc cfg tf rest
      (purchase_empty_step cfg (init_state_from_category cid cfg t0) pe)
      ([] : List ℚ) pe.1 pe.2 hacc0 hp0 he0 hbpe.1 hbpe.2 hbrest
    rw [← hrun] at hres
    have hlist : ([] : List ℚ) ++ _days_between pe.2 pe.1 :: rest.map observed_len
        = (pe :: rest).map observed_len := by
      simp [observed_len]
    rw [hlist] at hres
    obtain ⟨hlen, _, hmean⟩ := hres
    have hmapnil : (pe :: rest).map observed_len ≠ [] := by simp
    have hmean' := hmean hmapnil
    have hlennz : (((pe :: rest).map observed_len).length : ℚ) ≠ 0 := by
      simp only [List.length_map, List.length_cons]
      positivity
    constructor
    · rw [eq_div_iff (by simpa [List.length_map] using hlennz)]
      calc (apply_purchase (run_purchase_empty_pairs cfg (init_state_from_category cid cfg t0)
            (pe :: rest)) ⟨tf, .SYSTEM, 1⟩ cfg none).cycle_mean_days * ((pe :: rest).length : ℚ)
          = (apply_purchase (run_purchase_empty_pairs cfg (init_state_from_category cid cfg t0)
            (pe :: rest)) ⟨tf, .SYSTEM, 1⟩ cfg none).cycle_mean_days
              * (((pe :: rest).map observed_len).length : ℚ) := by
            rw [List.length_map]
        _ = ((pe :: rest).map observed_len).sum := hmean'
    · rw [hlen, List.length_map]

theorem cycle_mean_is_arithmetic_mean_witness :
    (([((0:ℚ), (6:ℚ)), (7, 12)] : List (ℚ × ℚ)) ≠ [] ∧
      (∀ pe ∈ ([((0:ℚ), (6:ℚ)), (7, 12)] : List (ℚ × ℚ)),
        default_config.min_cycle_days ≤ observed_len pe ∧
        observed_len pe ≤ default_config.max_cycle_days)) ∧
    ((apply_purchase (run_purchase_empty_pairs default_config
          (init_state_from_category none default_config 0) [((0:ℚ), (6:ℚ)), (7, 12)])
        ⟨14, .SYSTEM, 1⟩ default_config none).cycle_mean_days
      = (([((0:ℚ), (6:ℚ)), (7, 12)] : List (ℚ × ℚ)).map observed_len).sum
          / ((([((0:ℚ), (6:ℚ)), (7, 12)] : List (ℚ × ℚ)).length : ℚ)) ∧
    (apply_purchase (run_purchase_empty_pairs default_config
          (init_state_from_category none default_config 0) [((0:ℚ), (6:ℚ)), (7, 12)])
        ⟨14, .SYSTEM, 1⟩ default_config none).n_completed_cycles
      = ([((0:ℚ), (6:ℚ)), (7, 12)] : List (ℚ × ℚ)).length) :=
  ⟨⟨by simp, by norm_num [observed_len, _days_between, pyabs, default_config]⟩,
    cycle_mean_is_arithmetic_mean default_config none 0 14 [((0:ℚ), (6:ℚ)), (7, 12)]
      (by simp) (by norm_num [observed_len, _days_between, pyabs, default_config])⟩
